import Mathlib

/-!
# Verification of the systray core (src/systray.go)

A shallow embedding of the single-file Go library `package systray`.
Pure data is translated to Lean structures; the global mutable state
(the registry map `menuItems`, the id counter `currentID`, and the list
of calls made to the native backend `addOrUpdateMenuItem`) is threaded
explicitly as a `SystrayState`.  Go `int32` arithmetic is modelled on
`Int` with explicit two's-complement wrapping.  A Go map lookup that
misses returns the zero value of the value type; for `map[int32]*MenuItem`
that zero value is the nil pointer, modelled here as `Option.none`.

The ready handshake (`Run` / `systrayReady`, lines 50-58 and 148-150) is
modelled as a small labelled transition system: the unbuffered channel
`readyCh` pairs one blocked sender with the single receiver goroutine
spawned by `Run`; the channel rendezvous, the callback invocation, and the
arrival of a new `systrayReady` call are the three atomic steps.

The lock discipline of `update` and `systrayMenuItemSelected`
(lines 141-146 and 152-161) is modelled as the concrete sequences of
primitive actions those functions perform, in program order.
-/

/-- MenuItem (src/systray.go lines 18-33): one entry of the tray menu.
Field for field the Go struct: `id int32`, `title`, `tooltip` strings and
the four booleans `disabled`, `checked`, `remove`, `separator`. -/
structure MenuItem where
  id : Int
  title : String
  tooltip : String
  disabled : Bool
  checked : Bool
  remove : Bool
  separator : Bool
deriving DecidableEq, Repr

/-- One call made to the native backend `addOrUpdateMenuItem(item, before)`
(invoked from `update`, line 145): the full item state plus the optional
positional hint (`nil` becomes `none`). -/
structure ApplyEvent where
  item : MenuItem
  before : Option MenuItem
deriving DecidableEq, Repr

/-- The process-wide mutable state of the package (lines 38-43):
the registry map `menuItems` (as an association list keyed by id, at most
one entry per key), the id counter `currentID`, and the ordered trace of
calls made to the backend apply hook. -/
structure SystrayState where
  menuItems : List (Int × MenuItem)
  currentID : Int
  backendEvents : List ApplyEvent
deriving DecidableEq, Repr

/-- Go map assignment `menuItems[k] = v`: insert or overwrite the entry
for key `k`. -/
def mapInsert (m : List (Int × MenuItem)) (k : Int) (v : MenuItem) :
    List (Int × MenuItem) :=
  (k, v) :: m.filter (fun p => p.1 != k)

/-- Go map read `menuItems[k]` for a `map[int32]*MenuItem`: `none` models
the nil pointer returned on a lookup miss. -/
def mapLookup (m : List (Int × MenuItem)) (k : Int) : Option MenuItem :=
  (m.find? (fun p => p.1 == k)).map Prod.snd

/-- Two's-complement wrapping of an integer into the `int32` range
`[-2^31, 2^31)`, the semantics of Go `int32` overflow. -/
def int32Wrap (x : Int) : Int :=
  (x + 2147483648) % 4294967296 - 2147483648

/-- `atomic.AddInt32(&currentID, 1)` (line 70): increment the counter with
`int32` wrap-around and return the new value.  The Go operation is a single
atomic read-modify-write, so under any interleaving of concurrent
`AddMenuItem` calls the ids issued are exactly the successive values of
this function; the sequential iteration below therefore covers every
concurrent schedule. -/
def nextID (cur : Int) : Int :=
  int32Wrap (cur + 1)

/-- The value of `currentID` after `n` allocations starting from the zero
value of the package-level `var currentID int32` (line 43); the `n`-th
`AddMenuItem` call (1-indexed) is issued the id `idAfter n`. -/
def idAfter : Nat → Int
  | 0 => 0
  | n + 1 => nextID (idAfter n)

/-- `update` (lines 141-146): under the write lock, store the item in the
registry under its id, then call the backend `addOrUpdateMenuItem(item,
before)` (recorded here as an appended `ApplyEvent`). -/
def MenuItem.update (item : MenuItem) (before : Option MenuItem)
    (s : SystrayState) : SystrayState :=
  { s with
    menuItems := mapInsert s.menuItems item.id item
    backendEvents := s.backendEvents ++ [⟨item, before⟩] }

/-- The struct literal of line 71: `&MenuItem{id, title, tooltip, false,
false, false, false}`.  Pure construction: it touches neither the registry
nor the backend. -/
def mkMenuItem (id : Int) (title tooltip : String) : MenuItem :=
  ⟨id, title, tooltip, false, false, false, false⟩

/-- `AddMenuItem(title, tooltip, before)` (lines 69-74): allocate a fresh
id, build the item, then publish it through `update` with the caller's
positional hint.  Returns the new item together with the new state. -/
def AddMenuItem (s : SystrayState) (title tooltip : String)
    (before : Option MenuItem) : MenuItem × SystrayState :=
  let id := nextID s.currentID
  let item := mkMenuItem id title tooltip
  (item, item.update before { s with currentID := id })

/-- `SetTitle` (lines 77-80): set the title field, then `update(nil)`. -/
def MenuItem.SetTitle (item : MenuItem) (title : String)
    (s : SystrayState) : MenuItem × SystrayState :=
  let it := { item with title := title }
  (it, it.update none s)

/-- `SetTooltip` (lines 88-91): set the tooltip field, then `update(nil)`. -/
def MenuItem.SetTooltip (item : MenuItem) (tooltip : String)
    (s : SystrayState) : MenuItem × SystrayState :=
  let it := { item with tooltip := tooltip }
  (it, it.update none s)

/-- `SetSeparator` (lines 94-97): set the separator flag, then
`update(nil)`. -/
def MenuItem.SetSeparator (item : MenuItem) (sep : Bool)
    (s : SystrayState) : MenuItem × SystrayState :=
  let it := { item with separator := sep }
  (it, it.update none s)

/-- `Enable` (lines 105-108): clear the disabled flag, then `update(nil)`. -/
def MenuItem.Enable (item : MenuItem) (s : SystrayState) :
    MenuItem × SystrayState :=
  let it := { item with disabled := false }
  (it, it.update none s)

/-- `Disable` (lines 111-114): set the disabled flag, then `update(nil)`. -/
def MenuItem.Disable (item : MenuItem) (s : SystrayState) :
    MenuItem × SystrayState :=
  let it := { item with disabled := true }
  (it, it.update none s)

/-- `Check` (lines 122-125): set the checked flag, then `update(nil)`. -/
def MenuItem.Check (item : MenuItem) (s : SystrayState) :
    MenuItem × SystrayState :=
  let it := { item with checked := true }
  (it, it.update none s)

/-- `Uncheck` (lines 128-131): clear the checked flag, then `update(nil)`. -/
def MenuItem.Uncheck (item : MenuItem) (s : SystrayState) :
    MenuItem × SystrayState :=
  let it := { item with checked := false }
  (it, it.update none s)

/-- `Remove` (lines 135-138): set the remove flag, then `update(nil)`. -/
def MenuItem.Remove (item : MenuItem) (s : SystrayState) :
    MenuItem × SystrayState :=
  let it := { item with remove := true }
  (it, it.update none s)

/-- Buffer capacity of `ClickedCh = make(chan *MenuItem)` (line 38): an
unbuffered Go channel. -/
def clickedChCapacity : Nat := 0

/-- Buffer capacity of `readyCh = make(chan interface\x7b\x7d)` (line 39):
an unbuffered Go channel. -/
def readyChCapacity : Nat := 0

/-- `systrayMenuItemSelected(id)` (lines 152-161): under the read lock,
look the id up in the registry (a miss yields the nil pointer, `none`),
then perform the non-blocking `select` send on `ClickedCh`.
`listenerReady` says whether some goroutine is blocked receiving on
`ClickedCh` at that instant.  The first component is what the select does:
`some v` means the value `v` (a possibly-nil item pointer) was delivered
to the receiver, `none` means the `default` branch ran and the click was
dropped.  The second component is the resulting state: the dispatcher
never mutates the registry or queues anything. -/
def systrayMenuItemSelected (s : SystrayState) (id : Int)
    (listenerReady : Bool) : Option (Option MenuItem) × SystrayState :=
  let item := mapLookup s.menuItems id
  (if listenerReady then some item else none, s)

/-- The primitive effects `update` and `systrayMenuItemSelected` perform
on the shared state, in program order. -/
inductive SysAct where
  | lockW
  | unlockW
  | lockR
  | unlockR
  | mapWrite
  | mapRead
  | backendApply
  | chanTrySend
deriving DecidableEq, Repr

/-- Program-order action trace of `update` (lines 141-146):
`menuItemsLock.Lock()`; the map store; the call to `addOrUpdateMenuItem`;
then the deferred `menuItemsLock.Unlock()` on return.  Every mutator
(lines 77-138) and `AddMenuItem` (line 72) reaches the registry only by
calling `update`, so this is the trace of every registry write. -/
def updateActions : List SysAct :=
  [SysAct.lockW, SysAct.mapWrite, SysAct.backendApply, SysAct.unlockW]

/-- Program-order action trace of `systrayMenuItemSelected`
(lines 152-161): `RLock()`; the map read; `RUnlock()`; then the
non-blocking select send. -/
def clickActions : List SysAct :=
  [SysAct.lockR, SysAct.mapRead, SysAct.unlockR, SysAct.chanTrySend]

/-- The write lock is held when action `i` of trace `tr` executes: among
the actions before position `i`, strictly more `Lock()` than `Unlock()`
calls have run. -/
def writeHeld (tr : List SysAct) (i : Nat) : Bool :=
  (tr.take i).count SysAct.unlockW < (tr.take i).count SysAct.lockW

/-- The read lock is held when action `i` of trace `tr` executes. -/
def readHeld (tr : List SysAct) (i : Nat) : Bool :=
  (tr.take i).count SysAct.unlockR < (tr.take i).count SysAct.lockR

/-- The steps `Run` performs on the calling thread (lines 50-58):
`runtime.LockOSThread()`, spawning the receiver goroutine, then
`nativeLoop()`.  The spawned goroutine's own body is `runSpawnedGoroutine`. -/
inductive ThreadAct where
  | lockOSThread
  | goSpawn
  | nativeLoop
  | recvReady
  | callOnReady
deriving DecidableEq, Repr

/-- The body of `Run` as executed on the caller's (pinned UI) thread,
lines 51, 52 and 57. -/
def runMainThread : List ThreadAct :=
  [ThreadAct.lockOSThread, ThreadAct.goSpawn, ThreadAct.nativeLoop]

/-- The body of the goroutine spawned by `Run` (lines 52-55): one receive
from `readyCh`, then the single call `onReady()`. -/
def runSpawnedGoroutine : List ThreadAct :=
  [ThreadAct.recvReady, ThreadAct.callOnReady]

/-- State of the ready handshake between `systrayReady` senders and the
one receiver goroutine spawned by `Run` (the spec and line 4 of the source
fix a single `Run` call per process).
`pendingSends` counts `systrayReady` calls currently blocked in
`readyCh <- nil`; `completedSends` counts those that have returned;
`receiverPC` is the receiver goroutine's position (0 = blocked at
`<-readyCh`, 1 = about to call `onReady()`, 2 = returned);
`onReadyCalls` counts invocations of the callback; `invokes` counts all
`systrayReady` calls made so far. -/
structure ReadyState where
  pendingSends : Nat
  completedSends : Nat
  receiverPC : Nat
  onReadyCalls : Nat
  invokes : Nat
deriving DecidableEq, Repr

/-- Process start: no sender yet, receiver blocked at the receive. -/
def ReadyState.init : ReadyState := ⟨0, 0, 0, 0, 0⟩

/-- Atomic steps of the handshake.
`invoke`: the backend calls `systrayReady()` (line 148), which immediately
blocks in the unconditional send `readyCh <- nil` (line 149) — there is no
guard, so this step is always enabled.
`rendezvous`: the unbuffered channel pairs one blocked sender with the
receiver blocked at `<-readyCh` (line 53): the send completes and the
receiver advances.
`callback`: the receiver runs `onReady()` (line 54) and the goroutine
ends. -/
inductive ReadyStep : ReadyState → ReadyState → Prop where
  | invoke (s : ReadyState) :
      ReadyStep s { s with
        pendingSends := s.pendingSends + 1
        invokes := s.invokes + 1 }
  | rendezvous (s : ReadyState) (h1 : s.receiverPC = 0)
      (h2 : 0 < s.pendingSends) :
      ReadyStep s { s with
        pendingSends := s.pendingSends - 1
        completedSends := s.completedSends + 1
        receiverPC := 1 }
  | callback (s : ReadyState) (h : s.receiverPC = 1) :
      ReadyStep s { s with
        onReadyCalls := s.onReadyCalls + 1
        receiverPC := 2 }

/-- States reachable from process start by handshake steps. -/
inductive ReadyReachable : ReadyState → Prop where
  | init : ReadyReachable ReadyState.init
  | step {s s' : ReadyState} :
      ReadyReachable s → ReadyStep s s' → ReadyReachable s'

/-- The state after one `systrayReady` call has been made, rendezvoused
with the receiver, and the callback has run. -/
def readyS1 : ReadyState := ⟨0, 1, 2, 1, 1⟩

theorem mapLookup_mapInsert (m : List (Int × MenuItem)) (k : Int)
    (v : MenuItem) : mapLookup (mapInsert m k v) k = some v := by
  simp [mapLookup, mapInsert, List.find?]

theorem idAfter_eq (n : Nat) : idAfter n = int32Wrap n := by
  induction n with
  | zero => simp [idAfter, int32Wrap]
  | succ n ih =>
    simp only [idAfter, nextID, ih, int32Wrap]
    push_cast
    omega

theorem readyReachable_inv (s : ReadyState) (h : ReadyReachable s) :
    s.completedSends = (if s.receiverPC = 0 then 0 else 1)
    ∧ s.onReadyCalls = (if s.receiverPC = 2 then 1 else 0)
    ∧ s.receiverPC ≤ 2
    ∧ s.invokes = s.completedSends + s.pendingSends := by
  induction h with
  | init => simp [ReadyState.init]
  | step _ hs ih =>
    obtain ⟨a, b, c, d⟩ := ih
    cases hs with
    | invoke => simp_all; omega
    | rendezvous h1 h2 => simp_all; omega
    | callback h1 => simp_all

/-- C1 counterexample: with an empty registry (so the lookup of id 1
misses, yielding the nil pointer) and a listener ready to receive,
`systrayMenuItemSelected` does deliver a value on `ClickedCh` — the nil
item — contradicting the claim that no value is delivered for a click
whose id is absent from the registry. -/
theorem C1_counterexample :
    mapLookup ([] : List (Int × MenuItem)) 1 = none
    ∧ (systrayMenuItemSelected ⟨[], 0, []⟩ 1 true).1 ≠ none := by
  constructor
  · rfl
  · intro h
    simp [systrayMenuItemSelected] at h

/-- C1 (amended): on a lookup miss the dispatcher still runs the
non-blocking select with the nil item: a listener blocked on the channel
receives the nil value `none` (not a registered item) for that click, and
only when no listener is ready is nothing delivered. -/
theorem C1_lookup_miss (s : SystrayState) (id : Int) (r : Bool)
    (h : mapLookup s.menuItems id = none) :
    (systrayMenuItemSelected s id r).1 = if r then some none else none := by
  simp [systrayMenuItemSelected, h]

/-- C1 witness: the amended statement at the empty registry, id 5, with a
ready listener. -/
theorem C1_witness :
    mapLookup (SystrayState.mk [] 0 []).menuItems 5 = none
    ∧ (systrayMenuItemSelected (SystrayState.mk [] 0 []) 5 true).1
      = if true then some none else none :=
  ⟨rfl, C1_lookup_miss (SystrayState.mk [] 0 []) 5 true rfl⟩

/-- C2 counterexample: the id counter is a Go `int32` and
`atomic.AddInt32` wraps on overflow.  The 2147483648-th allocation
returns an id smaller than the one before it (the counter wraps from
2^31 - 1 to -2^31), refuting strict growth, and the (2^32 + 1)-th
allocation returns the same id 1 as the first, refuting uniqueness for
the lifetime of the process. -/
theorem C2_counterexample :
    ¬ idAfter 2147483647 < idAfter 2147483648
    ∧ idAfter 4294967297 = idAfter 1
    ∧ idAfter 1 = 1 := by
  simp only [idAfter_eq]
  unfold int32Wrap
  norm_num

/-- C2 (amended): as long as the total number of allocations stays below
2^31 the `int32` counter never wraps, and the identifiers issued by
`AddMenuItem` are strictly increasing and pairwise distinct under any
interleaving of concurrent calls (each allocation is one atomic
`AddInt32`, so every schedule is a sequence of `nextID` steps). -/
theorem C2_ids_strictly_increasing (m n : Nat) (hmn : m < n)
    (hn : n < 2147483648) :
    idAfter m < idAfter n ∧ idAfter m ≠ idAfter n := by
  rw [idAfter_eq, idAfter_eq]
  unfold int32Wrap
  constructor
  · omega
  · omega

/-- C2 witness: the first and second allocations, ids 1 and 2. -/
theorem C2_witness : idAfter 1 < idAfter 2 ∧ idAfter 1 ≠ idAfter 2 :=
  C2_ids_strictly_increasing 1 2 (by norm_num) (by norm_num)

/-- C3: read-your-writes through the registry.  For each of the eight
mutators, once the call completes (and with no interleaved writer, which
the sequential state threading expresses), looking the item's id up in
the registry yields exactly the item just published, and its fields equal
the values the mutator established. -/
theorem C3_read_your_writes (s : SystrayState) (item : MenuItem)
    (t tt : String) (b : Bool) :
    (mapLookup (item.SetTitle t s).2.menuItems item.id
        = some (item.SetTitle t s).1
      ∧ (item.SetTitle t s).1.title = t)
    ∧ (mapLookup (item.SetTooltip tt s).2.menuItems item.id
        = some (item.SetTooltip tt s).1
      ∧ (item.SetTooltip tt s).1.tooltip = tt)
    ∧ (mapLookup (item.SetSeparator b s).2.menuItems item.id
        = some (item.SetSeparator b s).1
      ∧ (item.SetSeparator b s).1.separator = b)
    ∧ (mapLookup (item.Enable s).2.menuItems item.id
        = some (item.Enable s).1
      ∧ (item.Enable s).1.disabled = false)
    ∧ (mapLookup (item.Disable s).2.menuItems item.id
        = some (item.Disable s).1
      ∧ (item.Disable s).1.disabled = true)
    ∧ (mapLookup (item.Check s).2.menuItems item.id
        = some (item.Check s).1
      ∧ (item.Check s).1.checked = true)
    ∧ (mapLookup (item.Uncheck s).2.menuItems item.id
        = some (item.Uncheck s).1
      ∧ (item.Uncheck s).1.checked = false)
    ∧ (mapLookup (item.Remove s).2.menuItems item.id
        = some (item.Remove s).1
      ∧ (item.Remove s).1.remove = true) := by
  refine ⟨⟨?_, rfl⟩, ⟨?_, rfl⟩, ⟨?_, rfl⟩, ⟨?_, rfl⟩, ⟨?_, rfl⟩,
    ⟨?_, rfl⟩, ⟨?_, rfl⟩, ⟨?_, rfl⟩⟩ <;>
    exact mapLookup_mapInsert s.menuItems item.id _

/-- C4: every mutator modifies only its designated field; all other
fields, the id included, are unchanged.  The last group is the spec's
two-step scenario: after `Disable` then `Check`, the item is both
disabled and checked. -/
theorem C4_frame (s : SystrayState) (item : MenuItem) (t tt : String)
    (b : Bool) :
    ((item.SetTitle t s).1.id = item.id
      ∧ (item.SetTitle t s).1.tooltip = item.tooltip
      ∧ (item.SetTitle t s).1.disabled = item.disabled
      ∧ (item.SetTitle t s).1.checked = item.checked
      ∧ (item.SetTitle t s).1.remove = item.remove
      ∧ (item.SetTitle t s).1.separator = item.separator)
    ∧ ((item.SetTooltip tt s).1.id = item.id
      ∧ (item.SetTooltip tt s).1.title = item.title
      ∧ (item.SetTooltip tt s).1.disabled = item.disabled
      ∧ (item.SetTooltip tt s).1.checked = item.checked
      ∧ (item.SetTooltip tt s).1.remove = item.remove
      ∧ (item.SetTooltip tt s).1.separator = item.separator)
    ∧ ((item.SetSeparator b s).1.id = item.id
      ∧ (item.SetSeparator b s).1.title = item.title
      ∧ (item.SetSeparator b s).1.tooltip = item.tooltip
      ∧ (item.SetSeparator b s).1.disabled = item.disabled
      ∧ (item.SetSeparator b s).1.checked = item.checked
      ∧ (item.SetSeparator b s).1.remove = item.remove)
    ∧ ((item.Enable s).1.id = item.id
      ∧ (item.Enable s).1.title = item.title
      ∧ (item.Enable s).1.tooltip = item.tooltip
      ∧ (item.Enable s).1.checked = item.checked
      ∧ (item.Enable s).1.remove = item.remove
      ∧ (item.Enable s).1.separator = item.separator)
    ∧ ((item.Disable s).1.id = item.id
      ∧ (item.Disable s).1.title = item.title
      ∧ (item.Disable s).1.tooltip = item.tooltip
      ∧ (item.Disable s).1.checked = item.checked
      ∧ (item.Disable s).1.remove = item.remove
      ∧ (item.Disable s).1.separator = item.separator)
    ∧ ((item.Check s).1.id = item.id
      ∧ (item.Check s).1.title = item.title
      ∧ (item.Check s).1.tooltip = item.tooltip
      ∧ (item.Check s).1.disabled = item.disabled
      ∧ (item.Check s).1.remove = item.remove
      ∧ (item.Check s).1.separator = item.separator)
    ∧ ((item.Uncheck s).1.id = item.id
      ∧ (item.Uncheck s).1.title = item.title
      ∧ (item.Uncheck s).1.tooltip = item.tooltip
      ∧ (item.Uncheck s).1.disabled = item.disabled
      ∧ (item.Uncheck s).1.remove = item.remove
      ∧ (item.Uncheck s).1.separator = item.separator)
    ∧ ((item.Remove s).1.id = item.id
      ∧ (item.Remove s).1.title = item.title
      ∧ (item.Remove s).1.tooltip = item.tooltip
      ∧ (item.Remove s).1.disabled = item.disabled
      ∧ (item.Remove s).1.checked = item.checked
      ∧ (item.Remove s).1.separator = item.separator)
    ∧ (((item.Disable s).1.Check (item.Disable s).2).1.disabled = true
      ∧ ((item.Disable s).1.Check (item.Disable s).2).1.checked = true
      ∧ ((item.Disable s).1.Check (item.Disable s).2).1.title
        = item.title) := by
  repeat' apply And.intro
  all_goals rfl

/-- C5: the click dispatch is non-blocking and lossy.  With no listener
ready the select takes the `default` branch and nothing is delivered; in
every case the dispatcher leaves the state untouched (nothing is queued
or retried); when anything is delivered it is exactly the single resolved
registry entry, so at most one value is in flight per click; and
`ClickedCh` has buffer capacity zero.  (The dispatcher is a total
function, so the dispatching call always returns.) -/
theorem C5_nonblocking_send (s : SystrayState) (id : Int) :
    (systrayMenuItemSelected s id false).1 = none
    ∧ (systrayMenuItemSelected s id false).2 = s
    ∧ (systrayMenuItemSelected s id true).2 = s
    ∧ (∀ r : Bool, (systrayMenuItemSelected s id r).1 = none
        ∨ (systrayMenuItemSelected s id r).1
          = some (mapLookup s.menuItems id))
    ∧ clickedChCapacity = 0 := by
  refine ⟨rfl, rfl, rfl, ?_, rfl⟩
  intro r
  cases r
  · exact Or.inl rfl
  · exact Or.inr rfl

/-- C6: the positional hint reaches the backend only at creation.
`AddMenuItem` forwards its `before` argument in the single backend apply
it appends, while each of the eight mutators appends a backend apply
whose hint is `none` (Go `nil`). -/
theorem C6_positional_hint (s : SystrayState) (item : MenuItem)
    (t tt : String) (b : Bool) (before : Option MenuItem) :
    (AddMenuItem s t tt before).2.backendEvents
      = s.backendEvents ++ [⟨(AddMenuItem s t tt before).1, before⟩]
    ∧ (item.SetTitle t s).2.backendEvents
      = s.backendEvents ++ [⟨(item.SetTitle t s).1, none⟩]
    ∧ (item.SetTooltip tt s).2.backendEvents
      = s.backendEvents ++ [⟨(item.SetTooltip tt s).1, none⟩]
    ∧ (item.SetSeparator b s).2.backendEvents
      = s.backendEvents ++ [⟨(item.SetSeparator b s).1, none⟩]
    ∧ (item.Enable s).2.backendEvents
      = s.backendEvents ++ [⟨(item.Enable s).1, none⟩]
    ∧ (item.Disable s).2.backendEvents
      = s.backendEvents ++ [⟨(item.Disable s).1, none⟩]
    ∧ (item.Check s).2.backendEvents
      = s.backendEvents ++ [⟨(item.Check s).1, none⟩]
    ∧ (item.Uncheck s).2.backendEvents
      = s.backendEvents ++ [⟨(item.Uncheck s).1, none⟩]
    ∧ (item.Remove s).2.backendEvents
      = s.backendEvents ++ [⟨(item.Remove s).1, none⟩] := by
  repeat' apply And.intro
  all_goals rfl

/-- C9: `AddMenuItem(title, tooltip, before)` returns exactly the struct
literal of line 71 — the given title and tooltip, the freshly allocated
id, and all four booleans false — and the construction alone (the state
between lines 70 and 72: only `currentID` advanced) changes neither the
registry nor the backend trace: the item reaches both only through the
very same `update` step all mutators use, invoked at line 72. -/
theorem C9_creation (s : SystrayState) (t tt : String)
    (before : Option MenuItem) :
    (AddMenuItem s t tt before).1
      = mkMenuItem (nextID s.currentID) t tt
    ∧ (AddMenuItem s t tt before).1.title = t
    ∧ (AddMenuItem s t tt before).1.tooltip = tt
    ∧ (AddMenuItem s t tt before).1.id = nextID s.currentID
    ∧ (AddMenuItem s t tt before).1.disabled = false
    ∧ (AddMenuItem s t tt before).1.checked = false
    ∧ (AddMenuItem s t tt before).1.remove = false
    ∧ (AddMenuItem s t tt before).1.separator = false
    ∧ (SystrayState.mk s.menuItems (nextID s.currentID)
        s.backendEvents).menuItems = s.menuItems
    ∧ (SystrayState.mk s.menuItems (nextID s.currentID)
        s.backendEvents).backendEvents = s.backendEvents
    ∧ (AddMenuItem s t tt before).2
      = (mkMenuItem (nextID s.currentID) t tt).update before
          (SystrayState.mk s.menuItems (nextID s.currentID)
            s.backendEvents) := by
  repeat' apply And.intro
  all_goals rfl

/-- C7: lock discipline of the registry.  In `update`'s program-order
trace the map store and the backend apply both execute while the write
lock is held (the apply at line 145 runs before the deferred unlock); in
the dispatcher's trace the map read executes while the read lock is held;
the click path never writes the map and the update path never performs an
unlocked read — these two traces are the only registry accesses in the
package. -/
theorem C7_lock_discipline (i : Nat) :
    (updateActions[i]? = some SysAct.mapWrite →
      writeHeld updateActions i = true)
    ∧ (updateActions[i]? = some SysAct.backendApply →
      writeHeld updateActions i = true)
    ∧ (clickActions[i]? = some SysAct.mapRead →
      readHeld clickActions i = true)
    ∧ clickActions[i]? ≠ some SysAct.mapWrite
    ∧ updateActions[i]? ≠ some SysAct.mapRead := by
  rcases i with _ | _ | _ | _ | n
  · decide
  · decide
  · decide
  · decide
  · refine ⟨?_, ?_, ?_, ?_, ?_⟩ <;> simp [updateActions, clickActions]

/-- C7 witness: the map store (index 1) and the backend apply (index 2)
of `update` run under the write lock; the map read (index 1) of the
dispatcher runs under the read lock. -/
theorem C7_witness :
    writeHeld updateActions 1 = true
    ∧ writeHeld updateActions 2 = true
    ∧ readHeld clickActions 1 = true :=
  ⟨(C7_lock_discipline 1).1 (by decide),
   (C7_lock_discipline 2).2.1 (by decide),
   (C7_lock_discipline 1).2.2.1 (by decide)⟩

theorem readyS1_reachable : ReadyReachable readyS1 := by
  have h0 : ReadyReachable ReadyState.init := ReadyReachable.init
  have h1 : ReadyReachable (ReadyState.mk 1 0 0 0 1) :=
    ReadyReachable.step h0 (ReadyStep.invoke ReadyState.init)
  have h2 : ReadyReachable (ReadyState.mk 0 1 1 0 1) :=
    ReadyReachable.step h1
      (ReadyStep.rendezvous (ReadyState.mk 1 0 0 0 1) rfl (by decide))
  exact ReadyReachable.step h2
    (ReadyStep.callback (ReadyState.mk 0 1 1 0 1) rfl)

/-- C8: the ready handshake is one-shot.  In every reachable handshake
state the callback has run at most once; it has run only if a ready
signal was actually taken by the receiver; if `systrayReady` was never
invoked the callback never ran (and the receiver blocks forever); and
structurally the `onReady()` call sits in the body of the goroutine
spawned by `Run`, not among the actions of the pinned UI thread that
runs `nativeLoop`. -/
theorem C8_ready_once (s : ReadyState) (h : ReadyReachable s) :
    s.onReadyCalls ≤ 1
    ∧ s.onReadyCalls ≤ s.completedSends
    ∧ (s.invokes = 0 → s.onReadyCalls = 0)
    ∧ ThreadAct.callOnReady ∈ runSpawnedGoroutine
    ∧ ThreadAct.callOnReady ∉ runMainThread := by
  obtain ⟨a, b, c, d⟩ := readyReachable_inv s h
  refine ⟨?_, ?_, ?_, by decide, by decide⟩ <;>
    (split_ifs at a b <;> omega)

/-- C8 witness: the handshake properties at the reachable state where one
signal has been taken and the callback has run. -/
theorem C8_witness :
    readyS1.onReadyCalls ≤ 1
    ∧ readyS1.onReadyCalls ≤ readyS1.completedSends
    ∧ (readyS1.invokes = 0 → readyS1.onReadyCalls = 0)
    ∧ ThreadAct.callOnReady ∈ runSpawnedGoroutine
    ∧ ThreadAct.callOnReady ∉ runMainThread :=
  C8_ready_once readyS1 readyS1_reachable

/-- C10: `systrayReady` is an unconditional blocking send on the
unbuffered `readyCh` whose only receiver receives once.  In every
reachable state at most one send has completed; once the receiver has
moved past the receive, no step completes a send or unblocks a pending
sender, so a second `systrayReady` invocation stays blocked forever; a
send completes only by the rendezvous that moves the receiver past the
receive; the `invoke` step carries no guard (the send is unconditional,
nothing makes it one-shot on the sender side); and `readyCh` has buffer
capacity zero. -/
theorem C10_ready_send_blocking (s s' : ReadyState) :
    (ReadyReachable s → s.completedSends ≤ 1)
    ∧ (ReadyStep s s' → s.receiverPC ≠ 0 →
        s'.completedSends = s.completedSends
        ∧ s.pendingSends ≤ s'.pendingSends)
    ∧ (ReadyStep s s' → s.completedSends < s'.completedSends →
        s.receiverPC = 0 ∧ s'.receiverPC = 1)
    ∧ ReadyStep s { s with
        pendingSends := s.pendingSends + 1
        invokes := s.invokes + 1 }
    ∧ readyChCapacity = 0 := by
  refine ⟨?_, ?_, ?_, ReadyStep.invoke s, rfl⟩
  · intro h
    obtain ⟨a, b, c, d⟩ := readyReachable_inv s h
    split_ifs at a <;> omega
  · intro hs hpc
    cases hs with
    | invoke => exact ⟨rfl, Nat.le_succ _⟩
    | rendezvous h1 h2 => exact absurd h1 hpc
    | callback h1 => exact ⟨rfl, Nat.le_refl _⟩
  · intro hs hlt
    cases hs with
    | invoke => exact absurd hlt (lt_irrefl _)
    | rendezvous h1 h2 => exact ⟨h1, rfl⟩
    | callback h1 => exact absurd hlt (lt_irrefl _)

/-- C10 witness: at most one completed send in the reachable state
`readyS1`; the unguarded `invoke` step from the initial state; and a step
taken with the receiver already past the receive completes no send. -/
theorem C10_witness :
    readyS1.completedSends ≤ 1
    ∧ ReadyStep ReadyState.init { ReadyState.init with
        pendingSends := ReadyState.init.pendingSends + 1
        invokes := ReadyState.init.invokes + 1 }
    ∧ (ReadyState.mk 1 1 1 0 2).completedSends
      = (ReadyState.mk 0 1 1 0 1).completedSends :=
  ⟨(C10_ready_send_blocking readyS1 readyS1).1 readyS1_reachable,
   (C10_ready_send_blocking ReadyState.init ReadyState.init).2.2.2.1,
   ((C10_ready_send_blocking (ReadyState.mk 0 1 1 0 1)
      (ReadyState.mk 1 1 1 0 2)).2.1
      (ReadyStep.invoke (ReadyState.mk 0 1 1 0 1)) (by decide)).1⟩
